import Mathlib

/-!
# Buffer.h (PowerEditor/src/ScitillaComponent)

A shallow embedding of the `Buffer` class of `Buffer.h`: its data members, the
member functions whose bodies the header contains, the constructor, and the
change notifications a Buffer hands to its `FileManager`.

Conventions of the embedding.

* Object addresses (`Buffer *`, `FileManager *`, `ScintillaEditView *`) are natural
  numbers.
* A call `_pManager->beNotifiedOfBufferChange(this, mask)` is recorded by appending
  one `Notification` to the list `notified`; the list is the sequence of calls the
  FileManager has received, oldest first. What the FileManager does on receipt lies
  outside this header.
* A member function is a function on `St`: the object it is called on (`self`, `buf`),
  the class-wide static `_recentTagCtr`, and the notifications delivered so far.
* `char` arrays are lists of bytes; a C string argument is the list of bytes found at
  the pointer, read up to (not including) the first zero byte.
* `long` is the 32 bit two's complement integer of the Win32 targets of this code.
-/

namespace Npp

/-! ## Basic types -/

/-- An object address. -/
abbrev Ptr := Nat

/-- Line 24: `typedef Buffer * BufferID`. -/
abbrev BufferID := Ptr

/-- Line 25. -/
def BUFFER_INVALID : BufferID := 0

/-- Line 27: `typedef sptr_t Document`. -/
abbrev Document := Int

/-- One `char`. -/
abbrev CChar := Fin 256

/-- Lines 29-34: `enum DocFileStatus`, by its integer value. -/
abbrev DocFileStatus := Nat

def DOC_REGULAR : DocFileStatus := 0x01
def DOC_UNNAMED : DocFileStatus := 0x02
def DOC_DELETED : DocFileStatus := 0x04
def DOC_MODIFIED : DocFileStatus := 0x08

/-! Lines 36-47: `enum BufferStatusInfo`; a mask is the `int` handed to `doNotify`. -/

def BufferChangeLanguage : Nat := 0x001
def BufferChangeDirty : Nat := 0x002
def BufferChangeFormat : Nat := 0x004
def BufferChangeUnicode : Nat := 0x008
def BufferChangeReadonly : Nat := 0x010
def BufferChangeStatus : Nat := 0x020
def BufferChangeTimestamp : Nat := 0x040
def BufferChangeFilename : Nat := 0x080
def BufferChangeRecentTag : Nat := 0x100
def BufferChangeMask : Nat := 0x1FF

/-- Lines 49-54. -/
structure HeaderLineState where
  _headerLineNumber : Int
  _isExpanded : Bool
deriving DecidableEq, Repr

/-- Line 56. -/
def userLangNameMax : Nat := 16

/-- Modelled from the spec: `enum LangType` is declared outside Buffer.h. The header
names two of its values, `L_TXT` (plain text) and `L_USER` (user-defined); every other
enumerator is `other n`. -/
inductive LangType where
  | L_TXT
  | L_USER
  | other (n : Nat)
deriving DecidableEq, Repr

/-- Modelled from the spec: `enum UniMode` (text encoding mode) is declared in
Utf8_16.h, outside this header; a value is represented by its integer. -/
abbrev UniMode := Nat

/-- Modelled from the spec: `enum formatType` (line-ending format) is declared outside
this header; a value is represented by its integer. -/
abbrev formatType := Nat

/-- Modelled from the spec: `struct Position` is declared outside this header; the spec
describes it as a view's cursor/scroll position. -/
structure Position where
  cursor : Int
  scroll : Int
deriving DecidableEq, Repr

/-- The default-constructed `Position()`. -/
def Position.default : Position := ⟨0, 0⟩

/-- Modelled from the spec: `NewDocDefaultSettings` is declared outside this header; the
constructor reads exactly these three members of it (lines 132-135). -/
structure NewDocDefaultSettings where
  _format : formatType
  _encoding : UniMode
  _lang : LangType
deriving DecidableEq, Repr

/-! ## The Buffer object -/

/-- Lines 310-339: the data members of `class Buffer`, in declaration order. The static
member `_recentTagCtr` is not part of an object; it lives in `St`. -/
structure Buffer where
  _pManager : Ptr
  _canNotify : Bool
  _references : Int
  _id : BufferID
  _doc : Document
  _lang : LangType
  /-- Stands for `char _userLangExt[userLangNameMax]`. -/
  _userLangExt : List CChar
  _isDirty : Bool
  _format : formatType
  _unicodeMode : UniMode
  _isUserReadOnly : Bool
  _needLexer : Bool
  _referees : List Ptr
  _positions : List Position
  _foldStates : List (List HeaderLineState)
  _currentStatus : DocFileStatus
  _timeStamp : Int
  _isFileReadOnly : Bool
  /-- Stands for `char _fullPathName[MAX_PATH]`. -/
  _fullPathName : List CChar
  /-- Offset of the file name part inside `_fullPathName`. -/
  _fileName : Nat
  _recentTag : Int
deriving DecidableEq, Repr

/-- One call `beNotifiedOfBufferChange(theBuf, mask)` received by the FileManager
`manager` (line 71). -/
structure Notification where
  manager : Ptr
  theBuf : Ptr
  mask : Nat
deriving DecidableEq, Repr

/-- The state a member function of a Buffer runs in. -/
structure St where
  /-- Address of the object (`this`). -/
  self : Ptr
  buf : Buffer
  /-- Line 339: `static long _recentTagCtr`, shared by all Buffers. -/
  _recentTagCtr : Int
  /-- Notifications delivered so far, oldest first. -/
  notified : List Notification
deriving DecidableEq, Repr

/-- What an operation can end in instead of a result. -/
inductive Fault where
  /-- `strcpy` writes past the end of the destination array (undefined behaviour). -/
  | bufferOverflow
  /-- A view is attached that is attached already. -/
  | duplicateAttach
  /-- A view is used that is not attached. -/
  | notAttached
deriving DecidableEq, Repr

/-! ## Machine arithmetic and C strings -/

def LONG_MIN : Int := -2147483648
def LONG_MAX : Int := 2147483647

/-- The value of an integer stored in a 32 bit two's complement `long`. -/
def wrapLong (x : Int) : Int := (x + 2 ^ 31) % 2 ^ 32 - 2 ^ 31

/-- The C string found in `mem`: the bytes before the first zero byte. -/
def cstr (mem : List CChar) : List CChar := mem.takeWhile (fun c => decide (c ≠ 0))

/-- The call `strcpy(dest, src)` for a destination array of `cap` bytes: the string and its
terminating zero overwrite the front of `dest`, the bytes behind stay. -/
def strcpy (cap : Nat) (dest src : List CChar) : Except Fault (List CChar) :=
  let s := cstr src
  if s.length + 1 ≤ cap then .ok (s ++ (0 : CChar) :: dest.drop (s.length + 1))
  else .error Fault.bufferOverflow

/-! ## Member functions defined in the header -/

/-- Line 351. -/
def doNotify (mask : Nat) (s : St) : St :=
  if s.buf._canNotify then
    { s with notified := s.notified ++ [⟨s.buf._pManager, s.self, mask⟩] }
  else s

/-- Lines 159-161. -/
def getID (b : Buffer) : BufferID := b._id

/-- Lines 163-166. -/
def increaseRecentTag (s : St) : St :=
  let ctr := wrapLong (s._recentTagCtr + 1)
  doNotify BufferChangeRecentTag
    { s with _recentTagCtr := ctr, buf := { s.buf with _recentTag := ctr } }

/-- Lines 168-170. -/
def getRecentTag (b : Buffer) : Int := b._recentTag

/-- Lines 174-176. -/
def isDirty (b : Buffer) : Bool := b._isDirty

/-- Lines 178-180. -/
def isReadOnly (b : Buffer) : Bool := b._isUserReadOnly || b._isFileReadOnly

/-- Lines 182-184. -/
def isUntitled (b : Buffer) : Bool := decide (b._currentStatus = DOC_UNNAMED)

/-- Lines 186-188. -/
def getFileReadOnly (b : Buffer) : Bool := b._isFileReadOnly

/-- Lines 190-193. -/
def setFileReadOnly (ro : Bool) (s : St) : St :=
  doNotify BufferChangeReadonly { s with buf := { s.buf with _isFileReadOnly := ro } }

/-- Lines 195-197. -/
def getUserReadOnly (b : Buffer) : Bool := b._isUserReadOnly

/-- Lines 199-202. -/
def setUserReadOnly (ro : Bool) (s : St) : St :=
  doNotify BufferChangeReadonly { s with buf := { s.buf with _isUserReadOnly := ro } }

/-- Lines 204-206. -/
def getFormat (b : Buffer) : formatType := b._format

/-- Lines 208-211. -/
def setFormat (format : formatType) (s : St) : St :=
  doNotify BufferChangeFormat { s with buf := { s.buf with _format := format } }

/-- Lines 213-215. -/
def getLangType (b : Buffer) : LangType := b._lang

/-- Lines 217-226. The C++ default argument `userLangName = ""` is the empty list. -/
def setLangType (lang : LangType) (userLangName : List CChar) (s : St) : Except Fault St :=
  if lang = s.buf._lang ∧ lang ≠ LangType.L_USER then .ok s
  else
    let s1 : St := { s with buf := { s.buf with _lang := lang } }
    if s1.buf._lang = LangType.L_USER then
      match strcpy userLangNameMax s1.buf._userLangExt userLangName with
      | .error e => .error e
      | .ok ext =>
        .ok (doNotify BufferChangeLanguage
          { s1 with buf := { s1.buf with _userLangExt := ext, _needLexer := true } })
    else
      .ok (doNotify BufferChangeLanguage { s1 with buf := { s1.buf with _needLexer := true } })

/-- Lines 228-230. -/
def getUnicodeMode (b : Buffer) : UniMode := b._unicodeMode

/-- Lines 232-241. The test of lines 233-237 and the assignment `_isDirty = true` of
line 239 are commented out in the source. -/
def setUnicodeMode (mode : UniMode) (s : St) : St :=
  doNotify (BufferChangeUnicode ||| BufferChangeDirty)
    { s with buf := { s.buf with _unicodeMode := mode } }

/-- Lines 242-244. -/
def getStatus (b : Buffer) : DocFileStatus := b._currentStatus

/-- Lines 246-248. -/
def getTimeStamp (b : Buffer) : Int := b._timeStamp

/-- Lines 250-252. -/
def getDocument (b : Buffer) : Document := b._doc

/-- Lines 254-257. -/
def setDirty (dirty : Bool) (s : St) : St :=
  doNotify BufferChangeDirty { s with buf := { s.buf with _isDirty := dirty } }

/-- Lines 267-269. -/
def isUserDefineLangExt (b : Buffer) : Bool := decide (b._userLangExt.headD 0 ≠ 0)

/-- Lines 271-273: the returned pointer, read as a C string. -/
def getUserDefineLangName (b : Buffer) : List CChar := cstr b._userLangExt

/-- Lines 297-299. -/
def getNeedsLexing (b : Buffer) : Bool := b._needLexer

/-- Lines 301-303. -/
def setNeedsLexing (lex : Bool) (s : St) : St :=
  { s with buf := { s.buf with _needLexer := lex } }

/-- Lines 346-349. -/
def setStatus (status : DocFileStatus) (s : St) : St :=
  doNotify BufferChangeStatus { s with buf := { s.buf with _currentStatus := status } }

/-! ## Member functions defined outside the header -/

/-- Modelled from the spec: `setFileName`, `updateTimeStamp` and `checkFileState` are
declared in Buffer.h and defined in Buffer.cpp, which is not available. The header
(lines 148-150) documents `setFileName` as copying the file name, determining the
language from the extension and getting the last modified time; the spec describes
`checkFileState` as recomputing timestamp, read-only attribute and classification and
notifying. The outcome of one such call is therefore arbitrary new values for the
file-derived members below together with the masks it hands to `doNotify`, in order. -/
structure ExternalEffect where
  _lang : LangType
  _userLangExt : List CChar
  _isDirty : Bool
  _currentStatus : DocFileStatus
  _timeStamp : Int
  _isFileReadOnly : Bool
  _fullPathName : List CChar
  _fileName : Nat
  masks : List Nat
deriving DecidableEq, Repr

/-- A call of a member function defined in Buffer.cpp whose outcome on the current object
is given by `f`. -/
def callExternal (f : Buffer → ExternalEffect) (s : St) : St :=
  let e := f s.buf
  let s1 : St := { s with buf := { s.buf with
    _lang := e._lang, _userLangExt := e._userLangExt, _isDirty := e._isDirty,
    _currentStatus := e._currentStatus, _timeStamp := e._timeStamp,
    _isFileReadOnly := e._isFileReadOnly, _fullPathName := e._fullPathName,
    _fileName := e._fileName } }
  e.masks.foldl (fun t mask => doNotify mask t) s1

/-- Modelled from the spec: the three member functions of Buffer.cpp that the constructor
calls (lines 135-137), as parameters. -/
structure BufferCpp where
  setFileName : List CChar → LangType → Buffer → ExternalEffect
  updateTimeStamp : Buffer → ExternalEffect
  checkFileState : Buffer → ExternalEffect

/-- Lines 126-133: the constructor `Buffer::Buffer` up to the first call: the member
initialiser list and the two assignments from `ndds`. `raw` is the indeterminate content
of the object's storage before construction (members such as `_lang`, `_userLangExt` and
`_fullPathName` are not initialised at this point); the three vectors are
default-constructed empty. `ctr` and `notified` are the static counter and the
notifications delivered before the call. -/
def ctorInit (ndds : NewDocDefaultSettings) (raw : Buffer)
    (self : Ptr) (ctr : Int) (notified : List Notification)
    (pManager : Ptr) (id : BufferID) (doc : Document) : St :=
  let b0 : Buffer := { raw with
    _pManager := pManager, _id := id, _isDirty := false, _doc := doc,
    _isFileReadOnly := false, _isUserReadOnly := false, _recentTag := -1, _references := 0,
    _canNotify := false, _timeStamp := 0, _needLexer := true,
    _referees := [], _positions := [], _foldStates := [] }
  let b1 : Buffer := { b0 with _format := ndds._format, _unicodeMode := ndds._encoding }
  { self := self, buf := b1, _recentTagCtr := ctr, notified := notified }

/-- Lines 135-143: the eight statements of the constructor body, in order. -/
def ctorBody (cpp : BufferCpp) (ndds : NewDocDefaultSettings) (type : DocFileStatus)
    (fileName : List CChar) : List (St → St) :=
  [ callExternal (cpp.setFileName fileName ndds._lang),
    callExternal cpp.updateTimeStamp,
    callExternal cpp.checkFileState,
    fun s => { s with buf := { s.buf with _currentStatus := type } },
    fun s => { s with buf := { s.buf with _isDirty := false } },
    fun s => { s with buf := { s.buf with _userLangExt := s.buf._userLangExt.set 0 0 } },
    fun s => if type = DOC_UNNAMED then { s with buf := { s.buf with _needLexer := false } }
      else s,
    fun s => { s with buf := { s.buf with _canNotify := true } } ]

/-- Statements run one after the other. -/
def runStmts (stmts : List (St → St)) (s : St) : St := stmts.foldl (fun t stmt => stmt t) s

/-- Lines 126-144: the constructor `Buffer::Buffer`. -/
def newBuffer (cpp : BufferCpp) (ndds : NewDocDefaultSettings) (raw : Buffer)
    (self : Ptr) (ctr : Int) (notified : List Notification)
    (pManager : Ptr) (id : BufferID) (doc : Document) (type : DocFileStatus)
    (fileName : List CChar) : St :=
  runStmts (ctorBody cpp ndds type fileName)
    (ctorInit ndds raw self ctr notified pManager id doc)

/-- Modelled from the spec: `indexOfReference` (declared line 344, defined in Buffer.cpp):
the index of a tracked view identity, none for an untracked one. -/
def indexOfReference (identifier : Ptr) (b : Buffer) : Option Nat :=
  if b._referees.indexOf identifier < b._referees.length then
    some (b._referees.indexOf identifier)
  else none

/-- Modelled from the spec: `addReference` (declared line 306, defined in Buffer.cpp).
Adding a reference for a view identity not already tracked appends a new parallel entry
(default position, empty fold-state set) and increments the count; a duplicate attach
fails loudly. Returns the reference count after the operation. -/
def addReference (identifier : Ptr) (s : St) : Except Fault (Int × St) :=
  match indexOfReference identifier s.buf with
  | some _ => .error Fault.duplicateAttach
  | none =>
    let b : Buffer := { s.buf with
      _referees := s.buf._referees ++ [identifier],
      _positions := s.buf._positions ++ [Position.default],
      _foldStates := s.buf._foldStates ++ [[]],
      _references := s.buf._references + 1 }
    .ok (b._references, { s with buf := b })

/-- Modelled from the spec: `removeReference` (declared line 307, defined in Buffer.cpp).
Removing a view removes all three of its entries and decrements the count; removing an
untracked view identity fails loudly. Returns the reference count after the operation. -/
def removeReference (identifier : Ptr) (s : St) : Except Fault (Int × St) :=
  match indexOfReference identifier s.buf with
  | none => .error Fault.notAttached
  | some i =>
    let b : Buffer := { s.buf with
      _referees := s.buf._referees.eraseIdx i,
      _positions := s.buf._positions.eraseIdx i,
      _foldStates := s.buf._foldStates.eraseIdx i,
      _references := s.buf._references - 1 }
    .ok (b._references, { s with buf := b })

/-- Modelled from the spec: `setPosition` (declared line 259, defined in Buffer.cpp):
stores the position of an attached view; an untracked view identity fails loudly. -/
def setPosition (pos : Position) (identifier : Ptr) (s : St) : Except Fault St :=
  match indexOfReference identifier s.buf with
  | none => .error Fault.notAttached
  | some i => .ok { s with buf := { s.buf with _positions := s.buf._positions.set i pos } }

/-- Modelled from the spec: `setHeaderLineState` (declared line 262, defined in
Buffer.cpp): stores the fold states of an attached view; an untracked view identity
fails loudly. -/
def setHeaderLineState (folds : List HeaderLineState) (identifier : Ptr) (s : St) :
    Except Fault St :=
  match indexOfReference identifier s.buf with
  | none => .error Fault.notAttached
  | some i => .ok { s with buf := { s.buf with _foldStates := s.buf._foldStates.set i folds } }

/-! ## Operations on a constructed Buffer -/

/-- The operations a caller can apply to a constructed Buffer. -/
inductive Op where
  | increaseRecentTag
  | setFileReadOnly (ro : Bool)
  | setUserReadOnly (ro : Bool)
  | setFormat (format : formatType)
  | setLangType (lang : LangType) (userLangName : List CChar)
  | setUnicodeMode (mode : UniMode)
  | setDirty (dirty : Bool)
  | setNeedsLexing (lex : Bool)
  | setStatus (status : DocFileStatus)
  | addReference (identifier : Ptr)
  | removeReference (identifier : Ptr)
  | setPosition (pos : Position) (identifier : Ptr)
  | setHeaderLineState (folds : List HeaderLineState) (identifier : Ptr)
  /-- A call of `setFileName`, `updateTimeStamp` or `checkFileState`. -/
  | external (f : Buffer → ExternalEffect)

/-- One operation. -/
def step (op : Op) (s : St) : Except Fault St :=
  match op with
  | .increaseRecentTag => .ok (increaseRecentTag s)
  | .setFileReadOnly ro => .ok (setFileReadOnly ro s)
  | .setUserReadOnly ro => .ok (setUserReadOnly ro s)
  | .setFormat format => .ok (setFormat format s)
  | .setLangType lang userLangName => setLangType lang userLangName s
  | .setUnicodeMode mode => .ok (setUnicodeMode mode s)
  | .setDirty dirty => .ok (setDirty dirty s)
  | .setNeedsLexing lex => .ok (setNeedsLexing lex s)
  | .setStatus status => .ok (setStatus status s)
  | .addReference identifier => (addReference identifier s).map Prod.snd
  | .removeReference identifier => (removeReference identifier s).map Prod.snd
  | .setPosition pos identifier => setPosition pos identifier s
  | .setHeaderLineState folds identifier => setHeaderLineState folds identifier s
  | .external f => .ok (callExternal f s)

/-- A sequence of operations, stopping at the first fault. -/
def run : List Op → St → Except Fault St
  | [], s => .ok s
  | op :: ops, s =>
    match step op s with
    | .error e => .error e
    | .ok s1 => run ops s1

/-! ## Several Buffers -/

/-- All live Buffers of the process: the address of a Buffer is its index in `buffers`. -/
structure World where
  buffers : List Buffer
  _recentTagCtr : Int
  notified : List Notification
deriving DecidableEq, Repr

/-- The call of member function `m` on the Buffer at address `p`. -/
def World.call (m : St → St) (p : Ptr) (w : World) : World :=
  match w.buffers[p]? with
  | none => w
  | some b =>
    let s := m { self := p, buf := b, _recentTagCtr := w._recentTagCtr, notified := w.notified }
    { buffers := w.buffers.set p s.buf, _recentTagCtr := s._recentTagCtr,
      notified := s.notified }

/-! ## Sample objects -/

/-- A constructed Buffer at address 7 of the FileManager at address 1: a clean, unnamed
document with the gate open. -/
def sampleBuffer : Buffer :=
  { _pManager := 1, _canNotify := true, _references := 0, _id := 7, _doc := 100,
    _lang := LangType.L_TXT, _userLangExt := List.replicate 16 0, _isDirty := false,
    _format := 0, _unicodeMode := 0, _isUserReadOnly := false, _needLexer := false,
    _referees := [], _positions := [], _foldStates := [], _currentStatus := DOC_UNNAMED,
    _timeStamp := 0, _isFileReadOnly := false, _fullPathName := [110, 101, 119, 0],
    _fileName := 0, _recentTag := -1 }

/-- The sample Buffer in a process that has delivered no notification yet. -/
def sampleSt : St := { self := 7, buf := sampleBuffer, _recentTagCtr := 0, notified := [] }

/-- The sample Buffer with the user-defined language "ab" selected. -/
def sampleUserSt : St :=
  { sampleSt with buf := { sampleBuffer with
      _lang := LangType.L_USER, _userLangExt := [97, 98, 0] ++ List.replicate 13 0,
      _needLexer := false } }

/-- Three Buffers with recency tags 2, -1 and 5 and the shared counter at 5. -/
def sampleWorld : World :=
  { buffers := [{ sampleBuffer with _recentTag := 2 }, sampleBuffer,
      { sampleBuffer with _recentTag := 5 }],
    _recentTagCtr := 5, notified := [] }

/-- An outcome that leaves every file-derived member as it is and notifies nothing. -/
def ExternalEffect.keep (b : Buffer) : ExternalEffect :=
  { _lang := b._lang, _userLangExt := b._userLangExt, _isDirty := b._isDirty,
    _currentStatus := b._currentStatus, _timeStamp := b._timeStamp,
    _isFileReadOnly := b._isFileReadOnly, _fullPathName := b._fullPathName,
    _fileName := b._fileName, masks := [] }

/-- A sample Buffer.cpp: `setFileName` stores the name, takes the default language and
the user-defined name "xy", and notifies name, language and timestamp; `updateTimeStamp`
stores a time; `checkFileState` finds the file deleted, marks the Buffer dirty and
notifies status and timestamp. -/
def sampleCpp : BufferCpp :=
  { setFileName := fun fn lang b =>
      { ExternalEffect.keep b with
        _lang := lang, _userLangExt := [120, 121, 0], _fullPathName := cstr fn ++ [0],
        _timeStamp := 1234,
        masks := [BufferChangeFilename ||| BufferChangeLanguage ||| BufferChangeTimestamp] },
    updateTimeStamp := fun b => { ExternalEffect.keep b with _timeStamp := 1234 },
    checkFileState := fun b =>
      { ExternalEffect.keep b with
        _currentStatus := DOC_DELETED, _isDirty := true, _timeStamp := 0,
        masks := [BufferChangeStatus ||| BufferChangeTimestamp] } }

/-- The Buffer constructed at address 7 for the regular file "a.c", from storage that
held the sample Buffer, after one earlier notification. -/
def sampleConstructed : St :=
  newBuffer sampleCpp ⟨0, 0, LangType.L_TXT⟩ sampleBuffer 7 0 [⟨1, 3, BufferChangeDirty⟩]
    1 7 100 DOC_REGULAR [97, 46, 99, 0]

/-! ## The per-view lists -/

/-- The three per-view lists have the same length, and the reference count is that
length. -/
def RefInv (b : Buffer) : Prop :=
  b._referees.length = b._positions.length ∧
  b._positions.length = b._foldStates.length ∧
  b._references = (b._referees.length : Int)

instance (b : Buffer) : Decidable (RefInv b) := by
  unfold RefInv
  infer_instance

/-! ## Notification lemmas -/

theorem doNotify_buf (mask : Nat) (s : St) : (doNotify mask s).buf = s.buf := by
  unfold doNotify; split <;> rfl

theorem doNotify_ctr (mask : Nat) (s : St) :
    (doNotify mask s)._recentTagCtr = s._recentTagCtr := by
  unfold doNotify; split <;> rfl

theorem doNotify_self (mask : Nat) (s : St) : (doNotify mask s).self = s.self := by
  unfold doNotify; split <;> rfl

theorem doNotify_notified (mask : Nat) (s : St) :
    (doNotify mask s).notified =
      s.notified ++ (if s.buf._canNotify then [⟨s.buf._pManager, s.self, mask⟩] else []) := by
  unfold doNotify; split <;> simp

/-! ## Encoding mode -/

/-- C1: on a Buffer whose can-notify gate is open, for every prior state and every mode
`m`, `setUnicodeMode m` sets the encoding mode to `m` and delivers exactly one
notification, to the Buffer's FileManager and for this Buffer, whose mask is
`BufferChangeUnicode | BufferChangeDirty = 0x00A`; that mask has both the
encoding-changed and the dirty-changed bit set. -/
theorem setUnicodeMode_notifies (s : St) (m : UniMode) (hgate : s.buf._canNotify = true) :
    getUnicodeMode (setUnicodeMode m s).buf = m ∧
    (setUnicodeMode m s).notified = s.notified ++ [⟨s.buf._pManager, s.self, 0x00A⟩] ∧
    BufferChangeUnicode ||| BufferChangeDirty = 0x00A ∧
    0x00A &&& BufferChangeUnicode = BufferChangeUnicode ∧
    0x00A &&& BufferChangeDirty = BufferChangeDirty := by
  refine ⟨?_, ?_, by decide, by decide, by decide⟩
  · simp [setUnicodeMode, doNotify_buf, getUnicodeMode]
  · have h : BufferChangeUnicode ||| BufferChangeDirty = 0x00A := by decide
    simp [setUnicodeMode, doNotify_notified, hgate, h]

/-- Witness of C1, at the sample Buffer, re-setting the mode it already has. -/
theorem setUnicodeMode_notifies_witness :
    getUnicodeMode (setUnicodeMode 0 sampleSt).buf = 0 ∧
    (setUnicodeMode 0 sampleSt).notified = [⟨1, 7, 0x00A⟩] :=
  ⟨(setUnicodeMode_notifies sampleSt 0 rfl).1, (setUnicodeMode_notifies sampleSt 0 rfl).2.1⟩

/-- C10: `setUnicodeMode` writes the encoding mode and nothing else: the dirty flag keeps
the value it had before the call, and language, format, both read-only flags, status,
timestamp, recency tag, needs-lexing flag and reference count are unchanged, as is every
other member and the shared recency counter; the notification it requests carries the
dirty-changed bit all the same. -/
theorem setUnicodeMode_frame (s : St) (m : UniMode) :
    (setUnicodeMode m s).buf = { s.buf with _unicodeMode := m } ∧
    isDirty (setUnicodeMode m s).buf = isDirty s.buf ∧
    getLangType (setUnicodeMode m s).buf = getLangType s.buf ∧
    getFormat (setUnicodeMode m s).buf = getFormat s.buf ∧
    getUserReadOnly (setUnicodeMode m s).buf = getUserReadOnly s.buf ∧
    getFileReadOnly (setUnicodeMode m s).buf = getFileReadOnly s.buf ∧
    getStatus (setUnicodeMode m s).buf = getStatus s.buf ∧
    getTimeStamp (setUnicodeMode m s).buf = getTimeStamp s.buf ∧
    getRecentTag (setUnicodeMode m s).buf = getRecentTag s.buf ∧
    getNeedsLexing (setUnicodeMode m s).buf = getNeedsLexing s.buf ∧
    (setUnicodeMode m s).buf._references = s.buf._references ∧
    (setUnicodeMode m s)._recentTagCtr = s._recentTagCtr ∧
    (setUnicodeMode m s).notified = s.notified ++
      (if s.buf._canNotify then
        [⟨s.buf._pManager, s.self, BufferChangeUnicode ||| BufferChangeDirty⟩] else []) := by
  have h : (setUnicodeMode m s).buf = { s.buf with _unicodeMode := m } := by
    simp [setUnicodeMode, doNotify_buf]
  refine ⟨h, ?_, ?_, ?_, ?_, ?_, ?_, ?_, ?_, ?_, ?_, ?_, ?_⟩
  case refine_11 => simp [setUnicodeMode, doNotify_ctr]
  case refine_12 => simp [setUnicodeMode, doNotify_notified]
  all_goals (first | (rw [h]; rfl) | rw [h])

/-! ## Read-only flags -/

/-- C4: the effective read-only state is the OR of two independent flags: after
`setUserReadOnly u` and `setFileReadOnly f` in either order, `isReadOnly` is `u || f`,
`getUserReadOnly` is `u` and `getFileReadOnly` is `f`; `setUserReadOnly` leaves the
file-level flag and `setFileReadOnly` leaves the user-level flag as it was. -/
theorem readOnly_is_or_of_flags (s : St) (u f : Bool) :
    (isReadOnly (setFileReadOnly f (setUserReadOnly u s)).buf = (u || f) ∧
      getUserReadOnly (setFileReadOnly f (setUserReadOnly u s)).buf = u ∧
      getFileReadOnly (setFileReadOnly f (setUserReadOnly u s)).buf = f) ∧
    (isReadOnly (setUserReadOnly u (setFileReadOnly f s)).buf = (u || f) ∧
      getUserReadOnly (setUserReadOnly u (setFileReadOnly f s)).buf = u ∧
      getFileReadOnly (setUserReadOnly u (setFileReadOnly f s)).buf = f) ∧
    getFileReadOnly (setUserReadOnly u s).buf = getFileReadOnly s.buf ∧
    getUserReadOnly (setFileReadOnly f s).buf = getUserReadOnly s.buf := by
  simp [setFileReadOnly, setUserReadOnly, doNotify_buf, isReadOnly, getUserReadOnly,
    getFileReadOnly]

/-! ## Single-aspect mutators -/

/-- C9: on a Buffer whose gate is open, each single-aspect mutator delivers exactly one
notification, for the Buffer itself, whose mask is the one bit of its aspect and lies
within `BufferChangeMask`: `setDirty` gives `BufferChangeDirty`, `setFormat` gives
`BufferChangeFormat`, `setFileReadOnly` and `setUserReadOnly` give `BufferChangeReadonly`,
`setStatus` gives `BufferChangeStatus`, `increaseRecentTag` gives `BufferChangeRecentTag`,
for every argument (also one equal to the current value); `setNeedsLexing` delivers
none. -/
theorem single_aspect_mutators_notify_once (s : St) (hgate : s.buf._canNotify = true)
    (dirty ro lex : Bool) (format : formatType) (status : DocFileStatus) :
    (setDirty dirty s).notified =
      s.notified ++ [⟨s.buf._pManager, s.self, BufferChangeDirty⟩] ∧
    (setFormat format s).notified =
      s.notified ++ [⟨s.buf._pManager, s.self, BufferChangeFormat⟩] ∧
    (setFileReadOnly ro s).notified =
      s.notified ++ [⟨s.buf._pManager, s.self, BufferChangeReadonly⟩] ∧
    (setUserReadOnly ro s).notified =
      s.notified ++ [⟨s.buf._pManager, s.self, BufferChangeReadonly⟩] ∧
    (setStatus status s).notified =
      s.notified ++ [⟨s.buf._pManager, s.self, BufferChangeStatus⟩] ∧
    (increaseRecentTag s).notified =
      s.notified ++ [⟨s.buf._pManager, s.self, BufferChangeRecentTag⟩] ∧
    (setNeedsLexing lex s).notified = s.notified ∧
    (BufferChangeDirty = 2 ^ 1 ∧ BufferChangeFormat = 2 ^ 2 ∧ BufferChangeReadonly = 2 ^ 4 ∧
      BufferChangeStatus = 2 ^ 5 ∧ BufferChangeRecentTag = 2 ^ 8) ∧
    (BufferChangeDirty &&& BufferChangeMask = BufferChangeDirty ∧
      BufferChangeFormat &&& BufferChangeMask = BufferChangeFormat ∧
      BufferChangeReadonly &&& BufferChangeMask = BufferChangeReadonly ∧
      BufferChangeStatus &&& BufferChangeMask = BufferChangeStatus ∧
      BufferChangeRecentTag &&& BufferChangeMask = BufferChangeRecentTag) := by
  refine ⟨?_, ?_, ?_, ?_, ?_, ?_, ?_, by decide, by decide⟩
  · simp [setDirty, doNotify_notified, hgate]
  · simp [setFormat, doNotify_notified, hgate]
  · simp [setFileReadOnly, doNotify_notified, hgate]
  · simp [setUserReadOnly, doNotify_notified, hgate]
  · simp [setStatus, doNotify_notified, hgate]
  · simp [increaseRecentTag, doNotify_notified, hgate]
  · simp [setNeedsLexing]

/-- Witness of C9, at the sample Buffer: marking the clean Buffer clean again still notifies once. -/
theorem single_aspect_mutators_notify_once_witness :
    (setDirty false sampleSt).notified = [⟨1, 7, BufferChangeDirty⟩] ∧
    (setNeedsLexing true sampleSt).notified = [] :=
  ⟨(single_aspect_mutators_notify_once sampleSt rfl false false true 0 DOC_REGULAR).1,
   (single_aspect_mutators_notify_once sampleSt rfl false false true 0 DOC_REGULAR).2.2.2.2.2.2.1⟩

/-! ## Language -/

theorem cstr_all_nonzero (mem : List CChar) : ∀ c ∈ cstr mem, decide (c ≠ 0) = true := by
  induction mem with
  | nil => simp [cstr]
  | cons a as ih =>
    intro c hc
    by_cases ha : a = 0
    · simp [cstr, ha] at hc
    · simp only [cstr, List.takeWhile_cons, ha, ne_eq, not_false_eq_true, decide_True,
        if_true, List.mem_cons] at hc
      rcases hc with rfl | hc
      · simpa using ha
      · exact ih c hc

theorem cstr_append_zero (mem rest : List CChar) :
    cstr (cstr mem ++ (0 : CChar) :: rest) = cstr mem := by
  induction mem with
  | nil => simp [cstr]
  | cons a as ih =>
    by_cases ha : a = 0
    · simp [cstr, ha]
    · simp only [cstr, List.takeWhile_cons, ha, ne_eq, not_false_eq_true, decide_True,
        if_true, List.cons_append, List.cons.injEq, true_and]
      exact ih

theorem headD_cstr_append_zero (mem rest : List CChar) :
    decide ((cstr mem ++ (0 : CChar) :: rest).headD 0 ≠ 0) = decide (cstr mem ≠ []) := by
  cases h : cstr mem with
  | nil => simp
  | cons c cs =>
    have hc : decide (c ≠ 0) = true := cstr_all_nonzero mem c (by simp [h])
    simpa using hc

/-- The effect of `setLangType(L_USER, n)` for a name that fits the array. -/
theorem setLangType_user (s : St) (n : List CChar) (hfit : (cstr n).length < userLangNameMax) :
    setLangType LangType.L_USER n s =
      .ok (doNotify BufferChangeLanguage { s with buf := { s.buf with
        _lang := LangType.L_USER,
        _userLangExt := cstr n ++ (0 : CChar) :: s.buf._userLangExt.drop ((cstr n).length + 1),
        _needLexer := true } }) := by
  have h : (cstr n).length + 1 ≤ userLangNameMax := hfit
  simp [setLangType, strcpy, h]

/-- The effect of `setLangType(l, n)` for a language other than `L_USER` that differs
from the current one. -/
theorem setLangType_other (s : St) (l : LangType) (n : List CChar)
    (hl : l ≠ LangType.L_USER) (hne : l ≠ s.buf._lang) :
    setLangType l n s =
      .ok (doNotify BufferChangeLanguage { s with buf := { s.buf with
        _lang := l, _needLexer := true } }) := by
  simp [setLangType, hl, hne]

/-- C3: re-setting the current language `l`. If `l` is not `L_USER`, `setLangType(l, n)`
returns at once for every `n`: no member changes and nothing is notified. If `l` is
`L_USER`, the gate is open and the name `n` fits the array, `setLangType(L_USER, n)` is
not a no-op: it stores `n` as the user-defined name, sets needs-lexing and delivers one
`BufferChangeLanguage` notification. -/
theorem setLangType_same_language (s : St) (n : List CChar) :
    (s.buf._lang ≠ LangType.L_USER → setLangType s.buf._lang n s = .ok s) ∧
    (s.buf._lang = LangType.L_USER → s.buf._canNotify = true →
      (cstr n).length < userLangNameMax →
      ∃ s1, setLangType LangType.L_USER n s = .ok s1 ∧ s1 ≠ s ∧
        getUserDefineLangName s1.buf = cstr n ∧
        getNeedsLexing s1.buf = true ∧
        getLangType s1.buf = LangType.L_USER ∧
        s1.notified = s.notified ++ [⟨s.buf._pManager, s.self, BufferChangeLanguage⟩]) := by
  constructor
  · intro h
    simp [setLangType, h]
  · intro _ hgate hfit
    refine ⟨_, setLangType_user s n hfit, ?_, ?_, ?_, ?_, ?_⟩
    · intro h
      have h2 := congrArg St.notified h
      simp [doNotify_notified, hgate] at h2
    · simp [doNotify_buf, getUserDefineLangName, cstr_append_zero]
    · simp [doNotify_buf, getNeedsLexing]
    · simp [doNotify_buf, getLangType]
    · simp [doNotify_notified, hgate]

/-- Witness of C3, at two sample Buffers: plain text re-set to plain text, and the user-defined
language "ab" re-set with the name "c". -/
theorem setLangType_same_language_witness :
    setLangType LangType.L_TXT [99, 0] sampleSt = .ok sampleSt ∧
    ∃ s1, setLangType LangType.L_USER [99, 0] sampleUserSt = .ok s1 ∧ s1 ≠ sampleUserSt ∧
      getUserDefineLangName s1.buf = [99] ∧
      getNeedsLexing s1.buf = true ∧
      getLangType s1.buf = LangType.L_USER ∧
      s1.notified = [⟨1, 7, BufferChangeLanguage⟩] :=
  ⟨(setLangType_same_language sampleSt [99, 0]).1 (by decide),
   (setLangType_same_language sampleUserSt [99, 0]).2 rfl rfl (by decide)⟩

/-- Counterexample to C2 as stated: on the sample Buffer, after `setLangType(L_USER, "a")` and then
`setLangType(L_TXT)` the stored name is still "a" and `isUserDefineLangExt()` is true. -/
theorem setLangType_clears_name_counterexample :
    (setLangType LangType.L_USER [97, 0] sampleSt >>= setLangType LangType.L_TXT []).map
        (fun s => (getLangType s.buf, isUserDefineLangExt s.buf, getUserDefineLangName s.buf)) =
      .ok (LangType.L_TXT, true, [97]) := by
  rfl

/-- C2, amended: after `setLangType(L_USER, n)` for a name `n` that fits the array,
followed by `setLangType(l, n2)` with `l` other than `L_USER`, the language is `l` and the
stored user-defined name is left as it was, not cleared: `getUserDefineLangName()` is
still `n`, and `isUserDefineLangExt()` is true exactly when `n` is not empty. -/
theorem setLangType_keeps_user_name (s : St) (n n2 : List CChar) (l : LangType)
    (hl : l ≠ LangType.L_USER) (hfit : (cstr n).length < userLangNameMax) :
    ∃ s1 s2, setLangType LangType.L_USER n s = .ok s1 ∧ setLangType l n2 s1 = .ok s2 ∧
      getLangType s2.buf = l ∧
      s2.buf._userLangExt = s1.buf._userLangExt ∧
      getUserDefineLangName s2.buf = cstr n ∧
      isUserDefineLangExt s2.buf = decide (cstr n ≠ []) := by
  refine ⟨_, _, setLangType_user s n hfit, setLangType_other _ l n2 hl ?_, ?_, ?_, ?_, ?_⟩
  · simpa [doNotify_buf] using hl
  · simp [doNotify_buf, getLangType]
  · simp [doNotify_buf]
  · simp [doNotify_buf, getUserDefineLangName, cstr_append_zero]
  · simp only [doNotify_buf, isUserDefineLangExt]
    exact headD_cstr_append_zero n _

/-- Witness of C2 as amended, at the sample Buffer with the name "a" and the language `L_TXT`. -/
theorem setLangType_keeps_user_name_witness :
    ∃ s1 s2, setLangType LangType.L_USER [97, 0] sampleSt = .ok s1 ∧
      setLangType LangType.L_TXT [] s1 = .ok s2 ∧
      getLangType s2.buf = LangType.L_TXT ∧
      s2.buf._userLangExt = s1.buf._userLangExt ∧
      getUserDefineLangName s2.buf = cstr [97, 0] ∧
      isUserDefineLangExt s2.buf = decide (cstr [97, 0] ≠ []) :=
  setLangType_keeps_user_name sampleSt [97, 0] [] LangType.L_TXT (by decide) (by decide)

/-! ## Recency -/

theorem wrapLong_succ (x : Int) (hmin : LONG_MIN ≤ x) (hmax : x < LONG_MAX) :
    wrapLong (x + 1) = x + 1 := by
  simp only [wrapLong, LONG_MIN, LONG_MAX] at *
  omega

/-- C6: in a state where the shared counter is a `long` below `LONG_MAX` and at least as
large as the recency tag of every Buffer, `increaseRecentTag` on the Buffer at address
`p` increments the shared counter by exactly one, leaves that Buffer with a tag equal to
the new counter value, strictly greater than its own previous tag and than the tag of
every other Buffer, leaves the other Buffers as they were, delivers one
`BufferChangeRecentTag` notification, and the counter is again at least as large as
every tag. -/
theorem increaseRecentTag_globally_comparable (w : World) (p : Ptr) (b : Buffer)
    (hb : w.buffers[p]? = some b) (hgate : b._canNotify = true)
    (hmin : LONG_MIN ≤ w._recentTagCtr) (hmax : w._recentTagCtr < LONG_MAX)
    (hinv : ∀ (q : Ptr) (c : Buffer), w.buffers[q]? = some c → getRecentTag c ≤ w._recentTagCtr) :
    (World.call increaseRecentTag p w)._recentTagCtr = w._recentTagCtr + 1 ∧
    (World.call increaseRecentTag p w).buffers[p]? =
      some { b with _recentTag := w._recentTagCtr + 1 } ∧
    getRecentTag b < w._recentTagCtr + 1 ∧
    (∀ (q : Ptr) (c : Buffer), q ≠ p → (World.call increaseRecentTag p w).buffers[q]? = some c →
      w.buffers[q]? = some c ∧ getRecentTag c < w._recentTagCtr + 1) ∧
    (World.call increaseRecentTag p w).notified =
      w.notified ++ [⟨b._pManager, p, BufferChangeRecentTag⟩] ∧
    (∀ (q : Ptr) (c : Buffer), (World.call increaseRecentTag p w).buffers[q]? = some c →
      getRecentTag c ≤ (World.call increaseRecentTag p w)._recentTagCtr) := by
  have hp : p < w.buffers.length := by
    rcases Nat.lt_or_ge p w.buffers.length with h | h
    · exact h
    · rw [List.getElem?_eq_none h] at hb
      cases hb
  have hw := wrapLong_succ _ hmin hmax
  have hcall : World.call increaseRecentTag p w =
      { buffers := w.buffers.set p { b with _recentTag := w._recentTagCtr + 1 },
        _recentTagCtr := w._recentTagCtr + 1,
        notified := w.notified ++ [⟨b._pManager, p, BufferChangeRecentTag⟩] } := by
    simp [World.call, hb, increaseRecentTag, doNotify_buf, doNotify_ctr, doNotify_notified,
      hgate, hw]
  have hbtag : getRecentTag b ≤ w._recentTagCtr := hinv p b hb
  rw [hcall]
  refine ⟨rfl, ?_, by omega, ?_, rfl, ?_⟩
  · simp [List.getElem?_set_self hp]
  · intro q c hq hc
    have hne : p ≠ q := fun h => hq h.symm
    simp only [List.getElem?_set_ne hne] at hc
    exact ⟨hc, by have := hinv q c hc; omega⟩
  · intro q c hc
    by_cases hq : p = q
    · subst hq
      simp only [List.getElem?_set_self hp, Option.some.injEq] at hc
      subst hc
      simp [getRecentTag]
    · simp only [List.getElem?_set_ne hq] at hc
      have := hinv q c hc
      show getRecentTag c ≤ w._recentTagCtr + 1
      omega

/-- Witness of C6, at the sample world: the Buffer at address 1 (tag -1) gets tag 6, above the tags 2
and 5 of the others. -/
theorem increaseRecentTag_globally_comparable_witness :
    (World.call increaseRecentTag 1 sampleWorld)._recentTagCtr = 5 + 1 ∧
    (World.call increaseRecentTag 1 sampleWorld).buffers[1]? =
      some { sampleBuffer with _recentTag := 5 + 1 } ∧
    (World.call increaseRecentTag 1 sampleWorld).notified =
      [] ++ [⟨1, 1, BufferChangeRecentTag⟩] :=
  have h := increaseRecentTag_globally_comparable sampleWorld 1 sampleBuffer rfl rfl
    (by decide) (by decide) (by
      intro q c hc
      match q, hc with
      | 0, hc => cases hc; decide
      | 1, hc => cases hc; decide
      | 2, hc => cases hc; decide
      | (q + 3), hc => cases hc)
  ⟨h.1, h.2.1, h.2.2.2.2.1⟩

/-! ## Calls into Buffer.cpp, and steps -/

theorem foldl_doNotify_buf (masks : List Nat) (s : St) :
    (masks.foldl (fun t mask => doNotify mask t) s).buf = s.buf := by
  induction masks generalizing s with
  | nil => rfl
  | cons m ms ih => rw [List.foldl_cons, ih, doNotify_buf]

theorem foldl_doNotify_notified_closed (masks : List Nat) (s : St)
    (h : s.buf._canNotify = false) :
    (masks.foldl (fun t mask => doNotify mask t) s).notified = s.notified := by
  induction masks generalizing s with
  | nil => rfl
  | cons m ms ih =>
    rw [List.foldl_cons, ih _ (by rw [doNotify_buf]; exact h), doNotify_notified, h]
    simp

theorem callExternal_buf (f : Buffer → ExternalEffect) (s : St) :
    (callExternal f s).buf = { s.buf with
      _lang := (f s.buf)._lang, _userLangExt := (f s.buf)._userLangExt,
      _isDirty := (f s.buf)._isDirty, _currentStatus := (f s.buf)._currentStatus,
      _timeStamp := (f s.buf)._timeStamp, _isFileReadOnly := (f s.buf)._isFileReadOnly,
      _fullPathName := (f s.buf)._fullPathName, _fileName := (f s.buf)._fileName } := by
  simp only [callExternal, foldl_doNotify_buf]

theorem callExternal_gate (f : Buffer → ExternalEffect) (s : St) :
    (callExternal f s).buf._canNotify = s.buf._canNotify := by
  rw [callExternal_buf]

theorem callExternal_notified_closed (f : Buffer → ExternalEffect) (s : St)
    (h : s.buf._canNotify = false) : (callExternal f s).notified = s.notified := by
  exact foldl_doNotify_notified_closed _ _ h

theorem callExternal_refInv (f : Buffer → ExternalEffect) (s : St) (h : RefInv s.buf) :
    RefInv (callExternal f s).buf := by
  rw [callExternal_buf]
  exact h

/-- The two ways `setLangType` can return. -/
theorem setLangType_ok (lang : LangType) (n : List CChar) (s s1 : St)
    (h : setLangType lang n s = .ok s1) :
    s1 = s ∨ ∃ ext, s1 = doNotify BufferChangeLanguage { s with buf := { s.buf with
      _lang := lang, _userLangExt := ext, _needLexer := true } } := by
  unfold setLangType at h
  split at h
  · left
    cases h
    rfl
  · right
    dsimp only at h
    split at h
    · split at h
      · cases h
      · cases h
        exact ⟨_, rfl⟩
    · cases h
      exact ⟨s.buf._userLangExt, rfl⟩

theorem indexOfReference_lt (v : Ptr) (b : Buffer) (i : Nat)
    (h : indexOfReference v b = some i) : i < b._referees.length := by
  unfold indexOfReference at h
  split at h
  · cases h
    assumption
  · cases h

/-- No operation writes the gate. -/
theorem step_gate (op : Op) (s s1 : St) (h : step op s = .ok s1) :
    s1.buf._canNotify = s.buf._canNotify := by
  cases op with
  | setLangType lang n =>
    rcases setLangType_ok lang n s s1 h with rfl | ⟨ext, rfl⟩
    · rfl
    · rw [doNotify_buf]
  | addReference v =>
    simp only [step, addReference] at h
    split at h <;> cases h
    rfl
  | removeReference v =>
    simp only [step, removeReference] at h
    split at h <;> cases h
    rfl
  | setPosition pos v =>
    simp only [step, setPosition] at h
    split at h <;> cases h
    rfl
  | setHeaderLineState folds v =>
    simp only [step, setHeaderLineState] at h
    split at h <;> cases h
    rfl
  | external f =>
    cases h
    exact callExternal_gate f s
  | _ =>
    cases h
    simp [increaseRecentTag, setFileReadOnly, setUserReadOnly, setFormat, setUnicodeMode,
      setDirty, setNeedsLexing, setStatus, doNotify_buf]

/-- While the gate is closed no operation delivers a notification. -/
theorem step_notified_closed (op : Op) (s s1 : St) (hgate : s.buf._canNotify = false)
    (h : step op s = .ok s1) : s1.notified = s.notified := by
  cases op with
  | setLangType lang n =>
    rcases setLangType_ok lang n s s1 h with rfl | ⟨ext, rfl⟩
    · rfl
    · simp [doNotify_notified, hgate]
  | addReference v =>
    simp only [step, addReference] at h
    split at h <;> cases h
    rfl
  | removeReference v =>
    simp only [step, removeReference] at h
    split at h <;> cases h
    rfl
  | setPosition pos v =>
    simp only [step, setPosition] at h
    split at h <;> cases h
    rfl
  | setHeaderLineState folds v =>
    simp only [step, setHeaderLineState] at h
    split at h <;> cases h
    rfl
  | external f =>
    cases h
    exact callExternal_notified_closed f s hgate
  | _ =>
    cases h
    simp [increaseRecentTag, setFileReadOnly, setUserReadOnly, setFormat, setUnicodeMode,
      setDirty, setNeedsLexing, setStatus, doNotify_notified, hgate]

/-- Every operation keeps the per-view lists aligned. -/
theorem step_refInv (op : Op) (s s1 : St) (hinv : RefInv s.buf) (h : step op s = .ok s1) :
    RefInv s1.buf := by
  cases op with
  | setLangType lang n =>
    rcases setLangType_ok lang n s s1 h with rfl | ⟨ext, rfl⟩
    · exact hinv
    · rw [doNotify_buf]
      exact hinv
  | addReference v =>
    simp only [step, addReference] at h
    split at h <;> cases h
    obtain ⟨h1, h2, h3⟩ := hinv
    refine ⟨?_, ?_, ?_⟩ <;> simp only [List.length_append, List.length_singleton]
    · omega
    · omega
    · push_cast
      omega
  | removeReference v =>
    simp only [step, removeReference] at h
    split at h
    · cases h
    · rename_i i hi
      cases h
      have hlt := indexOfReference_lt v s.buf i hi
      obtain ⟨h1, h2, h3⟩ := hinv
      refine ⟨?_, ?_, ?_⟩ <;> simp only [List.length_eraseIdx] <;>
        simp only [← h2, ← h1, hlt, if_true]
      simp only [h3]
      omega
  | setPosition pos v =>
    simp only [step, setPosition] at h
    split at h <;> cases h
    obtain ⟨h1, h2, h3⟩ := hinv
    exact ⟨by simpa using h1, by simpa using h2, h3⟩
  | setHeaderLineState folds v =>
    simp only [step, setHeaderLineState] at h
    split at h <;> cases h
    obtain ⟨h1, h2, h3⟩ := hinv
    exact ⟨h1, by simpa using h2, h3⟩
  | external f =>
    cases h
    exact callExternal_refInv f s hinv
  | _ =>
    cases h
    simpa [increaseRecentTag, setFileReadOnly, setUserReadOnly, setFormat, setUnicodeMode,
      setDirty, setNeedsLexing, setStatus, doNotify_buf, RefInv] using hinv

/-- A property kept by every operation is kept by every sequence of operations. -/
theorem run_preserves (P : St → Prop)
    (hstep : ∀ op s s1, P s → step op s = .ok s1 → P s1) :
    ∀ ops s s1, P s → run ops s = .ok s1 → P s1 := by
  intro ops
  induction ops with
  | nil =>
    intro s s1 hs h
    cases h
    exact hs
  | cons op ops ih =>
    intro s s1 hs h
    simp only [run] at h
    split at h
    · cases h
    · rename_i s2 h2
      exact ih s2 s1 (hstep op s s2 hs h2) h

/-! ## Construction -/

theorem cstr_set_zero (mem : List CChar) : cstr (mem.set 0 0) = [] := by
  cases mem <;> simp [cstr]

theorem headD_set_zero (mem : List CChar) : (mem.set 0 0).headD 0 = 0 := by
  cases mem <;> simp

/-- The constructor, as one update of the state its three calls leave. -/
theorem newBuffer_eq (cpp : BufferCpp) (ndds : NewDocDefaultSettings) (raw : Buffer)
    (self : Ptr) (ctr : Int) (notified : List Notification)
    (pManager : Ptr) (id : BufferID) (doc : Document) (type : DocFileStatus)
    (fileName : List CChar) (t : St)
    (ht : t = callExternal cpp.checkFileState (callExternal cpp.updateTimeStamp
      (callExternal (cpp.setFileName fileName ndds._lang)
        (ctorInit ndds raw self ctr notified pManager id doc)))) :
    newBuffer cpp ndds raw self ctr notified pManager id doc type fileName =
      { t with buf := { t.buf with
          _currentStatus := type, _isDirty := false,
          _userLangExt := t.buf._userLangExt.set 0 0,
          _needLexer := if type = DOC_UNNAMED then false else t.buf._needLexer,
          _canNotify := true } } := by
  subst ht
  by_cases h : type = DOC_UNNAMED
  · simp only [newBuffer, runStmts, ctorBody, List.foldl, h, if_true]
  · simp only [newBuffer, runStmts, ctorBody, List.foldl, h, if_false]

/-- The members of a freshly constructed Buffer that the constructor determines. -/
theorem newBuffer_buf (cpp : BufferCpp) (ndds : NewDocDefaultSettings) (raw : Buffer)
    (self : Ptr) (ctr : Int) (notified : List Notification)
    (pManager : Ptr) (id : BufferID) (doc : Document) (type : DocFileStatus)
    (fileName : List CChar) :
    (newBuffer cpp ndds raw self ctr notified pManager id doc type fileName).buf._canNotify
      = true ∧
    (newBuffer cpp ndds raw self ctr notified pManager id doc type fileName).buf._references
      = 0 ∧
    (∃ ext : List CChar,
      (newBuffer cpp ndds raw self ctr notified pManager id doc type fileName).buf._userLangExt
        = ext.set 0 0) ∧
    (newBuffer cpp ndds raw self ctr notified pManager id doc type fileName).buf._isDirty
      = false ∧
    (newBuffer cpp ndds raw self ctr notified pManager id doc type fileName).buf._needLexer
      = decide (type ≠ DOC_UNNAMED) ∧
    (newBuffer cpp ndds raw self ctr notified pManager id doc type fileName).buf._referees
      = [] ∧
    (newBuffer cpp ndds raw self ctr notified pManager id doc type fileName).buf._positions
      = [] ∧
    (newBuffer cpp ndds raw self ctr notified pManager id doc type fileName).buf._foldStates
      = [] ∧
    (newBuffer cpp ndds raw self ctr notified pManager id doc type fileName).buf._currentStatus
      = type ∧
    (newBuffer cpp ndds raw self ctr notified pManager id doc type fileName).buf._recentTag
      = -1 := by
  rw [newBuffer_eq cpp ndds raw self ctr notified pManager id doc type fileName _ rfl]
  refine ⟨rfl, ?_, ⟨_, rfl⟩, rfl, ?_, ?_, ?_, ?_, rfl, ?_⟩
  · simp only [callExternal_buf]
    rfl
  · by_cases h : type = DOC_UNNAMED
    · simp [h]
    · simp only [callExternal_buf, h, if_false]
      simp [ctorInit, h]
  · simp only [callExternal_buf]
    rfl
  · simp only [callExternal_buf]
    rfl
  · simp only [callExternal_buf]
    rfl
  · simp only [callExternal_buf]
    rfl

/-- C7: a Buffer constructed with type `DOC_UNNAMED` has `getNeedsLexing()` false, one
constructed with type `DOC_REGULAR` has `getNeedsLexing()` true; for every type passed
in, whatever `setFileName`, `updateTimeStamp` and `checkFileState` did, the constructed
Buffer has `getStatus()` equal to that type, `isDirty()` false, an empty user-defined
language name, and recency tag -1. -/
theorem newBuffer_initial_state (cpp : BufferCpp) (ndds : NewDocDefaultSettings)
    (raw : Buffer) (self : Ptr) (ctr : Int) (notified : List Notification)
    (pManager : Ptr) (id : BufferID) (doc : Document) (type : DocFileStatus)
    (fileName : List CChar) :
    getNeedsLexing
      (newBuffer cpp ndds raw self ctr notified pManager id doc DOC_UNNAMED fileName).buf
        = false ∧
    getNeedsLexing
      (newBuffer cpp ndds raw self ctr notified pManager id doc DOC_REGULAR fileName).buf
        = true ∧
    getStatus (newBuffer cpp ndds raw self ctr notified pManager id doc type fileName).buf
      = type ∧
    isDirty (newBuffer cpp ndds raw self ctr notified pManager id doc type fileName).buf
      = false ∧
    getUserDefineLangName
      (newBuffer cpp ndds raw self ctr notified pManager id doc type fileName).buf = [] ∧
    isUserDefineLangExt
      (newBuffer cpp ndds raw self ctr notified pManager id doc type fileName).buf = false ∧
    getRecentTag (newBuffer cpp ndds raw self ctr notified pManager id doc type fileName).buf
      = -1 := by
  have h1 := newBuffer_buf cpp ndds raw self ctr notified pManager id doc DOC_UNNAMED fileName
  have h2 := newBuffer_buf cpp ndds raw self ctr notified pManager id doc DOC_REGULAR fileName
  have h3 := newBuffer_buf cpp ndds raw self ctr notified pManager id doc type fileName
  obtain ⟨ext, hext⟩ := h3.2.2.1
  refine ⟨?_, ?_, h3.2.2.2.2.2.2.2.2.1, h3.2.2.2.1, ?_, ?_, h3.2.2.2.2.2.2.2.2.2⟩
  · rw [getNeedsLexing, h1.2.2.2.2.1]
    decide
  · rw [getNeedsLexing, h2.2.2.2.2.1]
    decide
  · rw [getUserDefineLangName, hext, cstr_set_zero]
  · rw [isUserDefineLangExt, hext, headD_set_zero]
    decide

/-- C5: notifications are gated on completed construction. While the constructor runs,
before each of its eight statements, the gate is closed and nothing has been delivered;
the constructed Buffer has the gate open and the constructor has delivered nothing. While
the gate is closed no operation delivers a notification. After construction no sequence
of operations closes the gate again. -/
theorem notifications_gated (cpp : BufferCpp) (ndds : NewDocDefaultSettings)
    (raw : Buffer) (self : Ptr) (ctr : Int) (notified : List Notification)
    (pManager : Ptr) (id : BufferID) (doc : Document) (type : DocFileStatus)
    (fileName : List CChar) :
    (∀ k, k < 8 →
      (runStmts ((ctorBody cpp ndds type fileName).take k)
        (ctorInit ndds raw self ctr notified pManager id doc)).buf._canNotify = false ∧
      (runStmts ((ctorBody cpp ndds type fileName).take k)
        (ctorInit ndds raw self ctr notified pManager id doc)).notified = notified) ∧
    (ctorBody cpp ndds type fileName).length = 8 ∧
    (newBuffer cpp ndds raw self ctr notified pManager id doc type fileName).buf._canNotify
      = true ∧
    (newBuffer cpp ndds raw self ctr notified pManager id doc type fileName).notified
      = notified ∧
    (∀ op s s1, s.buf._canNotify = false → step op s = .ok s1 → s1.notified = s.notified) ∧
    (∀ ops s1,
      run ops (newBuffer cpp ndds raw self ctr notified pManager id doc type fileName)
        = .ok s1 → s1.buf._canNotify = true) := by
  have hinit : (ctorInit ndds raw self ctr notified pManager id doc).buf._canNotify = false :=
    rfl
  have hinitn : (ctorInit ndds raw self ctr notified pManager id doc).notified = notified :=
    rfl
  have h1g := callExternal_gate (cpp.setFileName fileName ndds._lang)
    (ctorInit ndds raw self ctr notified pManager id doc)
  rw [hinit] at h1g
  have h1n := callExternal_notified_closed (cpp.setFileName fileName ndds._lang) _ hinit
  rw [hinitn] at h1n
  have h2g := callExternal_gate cpp.updateTimeStamp
    (callExternal (cpp.setFileName fileName ndds._lang)
      (ctorInit ndds raw self ctr notified pManager id doc))
  rw [h1g] at h2g
  have h2n := callExternal_notified_closed cpp.updateTimeStamp _ h1g
  rw [h1n] at h2n
  have h3g := callExternal_gate cpp.checkFileState
    (callExternal cpp.updateTimeStamp (callExternal (cpp.setFileName fileName ndds._lang)
      (ctorInit ndds raw self ctr notified pManager id doc)))
  rw [h2g] at h3g
  have h3n := callExternal_notified_closed cpp.checkFileState _ h2g
  rw [h2n] at h3n
  have hgate :
      (newBuffer cpp ndds raw self ctr notified pManager id doc type fileName).buf._canNotify
        = true := by
    simp [newBuffer, runStmts, ctorBody]
  refine ⟨?_, rfl, hgate, ?_, ?_, ?_⟩
  · intro k hk
    interval_cases k
    · exact ⟨hinit, hinitn⟩
    · exact ⟨h1g, h1n⟩
    · exact ⟨h2g, h2n⟩
    · exact ⟨h3g, h3n⟩
    · exact ⟨h3g, h3n⟩
    · exact ⟨h3g, h3n⟩
    · exact ⟨h3g, h3n⟩
    · by_cases ht : type = DOC_UNNAMED
      · simp only [runStmts, ctorBody, ht, List.take, List.foldl, if_true]
        exact ⟨h3g, h3n⟩
      · simp only [runStmts, ctorBody, ht, List.take, List.foldl, if_false]
        exact ⟨h3g, h3n⟩
  · by_cases ht : type = DOC_UNNAMED
    · simp only [newBuffer, runStmts, ctorBody, ht, List.foldl, if_true]
      exact h3n
    · simp only [newBuffer, runStmts, ctorBody, ht, List.foldl, if_false]
      exact h3n
  · intro op s s1 hclosed h
    exact step_notified_closed op s s1 hclosed h
  · intro ops s1 h
    exact run_preserves (fun s => s.buf._canNotify = true)
      (fun op s s2 hs h2 => (step_gate op s s2 h2).trans hs) ops _ s1 hgate h

/-- Witness of C5, at the sample construction: the constructor of the sample Buffer.cpp asks for two
notifications and none is delivered, a mutator on a Buffer under construction delivers
none, and the gate is open after three operations on the constructed Buffer. -/
theorem notifications_gated_witness :
    sampleConstructed.notified = [⟨1, 3, BufferChangeDirty⟩] ∧
    (setDirty true (ctorInit ⟨0, 0, LangType.L_TXT⟩ sampleBuffer 7 0 [] 1 7 100)).notified
      = [] ∧
    (setNeedsLexing false (setUnicodeMode 3 (setDirty true sampleConstructed))).buf._canNotify
      = true :=
  have h := notifications_gated sampleCpp ⟨0, 0, LangType.L_TXT⟩ sampleBuffer 7 0
    [⟨1, 3, BufferChangeDirty⟩] 1 7 100 DOC_REGULAR [97, 46, 99, 0]
  ⟨h.2.2.2.1,
   h.2.2.2.2.1 (Op.setDirty true)
     (ctorInit ⟨0, 0, LangType.L_TXT⟩ sampleBuffer 7 0 [] 1 7 100) _ rfl rfl,
   h.2.2.2.2.2 [Op.setDirty true, Op.setUnicodeMode 3, Op.setNeedsLexing false] _ rfl⟩

/-! ## Per-view state -/

/-- C8: the list of referencing views, the list of positions and the list of fold-state
sets have equal length at every observable point, and the reference count is that
length: a freshly constructed Buffer has all three lists empty and reference count 0;
every operation (`addReference`, `removeReference`, `setPosition`, `setHeaderLineState`,
every metadata mutator, every call into Buffer.cpp) that returns keeps the three lengths
equal and the count equal to them, and so does every sequence of operations on a
constructed Buffer. Attaching an untracked view returns and raises the count by one. -/
theorem parallel_lists_aligned (cpp : BufferCpp) (ndds : NewDocDefaultSettings)
    (raw : Buffer) (self : Ptr) (ctr : Int) (notified : List Notification)
    (pManager : Ptr) (id : BufferID) (doc : Document) (type : DocFileStatus)
    (fileName : List CChar) :
    ((newBuffer cpp ndds raw self ctr notified pManager id doc type fileName).buf._referees
        = [] ∧
      (newBuffer cpp ndds raw self ctr notified pManager id doc type fileName).buf._positions
        = [] ∧
      (newBuffer cpp ndds raw self ctr notified pManager id doc type fileName).buf._foldStates
        = [] ∧
      (newBuffer cpp ndds raw self ctr notified pManager id doc type fileName).buf._references
        = 0) ∧
    (∀ op s s1, RefInv s.buf → step op s = .ok s1 → RefInv s1.buf) ∧
    (∀ ops s1,
      run ops (newBuffer cpp ndds raw self ctr notified pManager id doc type fileName)
        = .ok s1 → RefInv s1.buf) ∧
    (∀ (s : St) (v : Ptr), v ∉ s.buf._referees →
      ∃ s1, step (Op.addReference v) s = .ok s1 ∧
        s1.buf._references = s.buf._references + 1 ∧
        s1.buf._referees = s.buf._referees ++ [v]) := by
  have hb := newBuffer_buf cpp ndds raw self ctr notified pManager id doc type fileName
  have hfresh :
      RefInv (newBuffer cpp ndds raw self ctr notified pManager id doc type fileName).buf := by
    simp [RefInv, hb.2.1, hb.2.2.2.2.2.1, hb.2.2.2.2.2.2.1, hb.2.2.2.2.2.2.2.1]
  refine ⟨?_, step_refInv, ?_, ?_⟩
  · exact ⟨hb.2.2.2.2.2.1, hb.2.2.2.2.2.2.1, hb.2.2.2.2.2.2.2.1, hb.2.1⟩
  · intro ops s1 h
    exact run_preserves (fun s => RefInv s.buf) step_refInv ops _ s1 hfresh h
  · intro s v hv
    have hidx : indexOfReference v s.buf = none := by
      have : ¬ List.indexOf v s.buf._referees < s.buf._referees.length := by
        rw [List.indexOf_lt_length]
        exact hv
      simp [indexOfReference, this]
    exact ⟨_, by simp [step, addReference, hidx, Except.map]; rfl, rfl, rfl⟩

/-- Witness of C8, at the sample construction: after attaching the views 11 and 12, storing a position
for 12 and detaching 11, the lists are aligned. -/
theorem parallel_lists_aligned_witness :
    RefInv (setDirty true sampleConstructed).buf ∧
    ∃ s1, run [Op.addReference 11, Op.addReference 12, Op.setPosition ⟨4, 2⟩ 12,
        Op.removeReference 11] sampleConstructed = .ok s1 ∧
      RefInv s1.buf ∧ s1.buf._referees = [12] ∧ s1.buf._positions = [⟨4, 2⟩] ∧
      s1.buf._references = 1 :=
  have h := parallel_lists_aligned sampleCpp ⟨0, 0, LangType.L_TXT⟩ sampleBuffer 7 0
    [⟨1, 3, BufferChangeDirty⟩] 1 7 100 DOC_REGULAR [97, 46, 99, 0]
  ⟨h.2.1 (Op.setDirty true) sampleConstructed _ (h.2.2.1 [] _ rfl) rfl,
   _, rfl, h.2.2.1 [Op.addReference 11, Op.addReference 12, Op.setPosition ⟨4, 2⟩ 12,
        Op.removeReference 11] _ rfl, rfl, rfl, rfl⟩

end Npp
